import Mathlib

/-!
Verification of the calendar maintenance scripts (`db_add.py`, `db_check.py`,
`db_UPDATE.py`, `db_delete.py`, `main-calendar/start.py`).

The database state is a list of rows of the `calendarapp_event` table.
Timestamps produced by `datetime.now()` are modelled as natural numbers
(clock readings passed in as parameters, one per call site); the literal
`start_time` / `end_time` values are kept as the strings the scripts store.
Each script becomes a pure function from the database state (and the clock
readings it consumes) to the resulting state and/or output.
-/

/-- One row of the `calendarapp_event` table.  Field names follow the
column names used by the scripts.  `created_at` and `updated_at` hold
clock readings (modelled as `Nat`); `start_time` and `end_time` are the
text values the scripts store. -/
structure EventRow where
  id : Nat
  title : String
  description : String
  start_time : String
  end_time : String
  is_active : Nat
  is_deleted : Nat
  created_at : Nat
  updated_at : Nat
  user_id : Nat
deriving DecidableEq, Repr

/-- The largest `id` present in the table (0 for the empty table). -/
def maxId : List EventRow → Nat
  | [] => 0
  | r :: rs => max r.id (maxId rs)

/-- The id SQLite auto-assigns to the next inserted row: one more than the
largest id currently present. -/
def nextId (db : List EventRow) : Nat := maxId db + 1

/-- Database file path opened by `db_add.py` (`sqlite3.connect(...)`). -/
def db_add_dbPath : String := "event-calendar-main/db.sqlite3"

/-- Database file path opened by `db_check.py`. -/
def db_check_dbPath : String := "event-calendar-main/db.sqlite3"

/-- Database file path opened by `db_UPDATE.py`. -/
def db_UPDATE_dbPath : String := "db.sqlite3"

/-- Database file path opened by `db_delete.py`. -/
def db_delete_dbPath : String := "event-calendar-main/db.sqlite3"

/-- The row inserted by `db_add.py`: the hardcoded `data` tuple together
with the auto-assigned id.  `now1` and `now2` are the results of the two
separate `datetime.now()` calls, in source order (`created_at` first,
`updated_at` second). -/
def insertedRow (db : List EventRow) (now1 now2 : Nat) : EventRow :=
  { id := nextId db
  , title := "예시 일정 제목"
  , description := "직접 삽입한 일정입니다."
  , start_time := "2025-05-20 09:00:00"
  , end_time := "2025-05-20 10:00:00"
  , is_active := 1
  , is_deleted := 0
  , created_at := now1
  , updated_at := now2
  , user_id := 1 }

/-- Effect of `db_add.py` on the table: `INSERT INTO calendarapp_event ...`
appends one new row, then the script commits. -/
def db_add_run (db : List EventRow) (now1 now2 : Nat) : List EventRow :=
  db ++ [insertedRow db now1 now2]

/-- The tuple shape printed by `db_check.py` for one row: `SELECT *`
returns all ten columns. -/
abbrev EventTuple :=
  Nat × String × String × String × String × Nat × Nat × Nat × Nat × Nat

/-- Modelled from the spec: the column order of the `calendarapp_event`
schema.  The schema itself is created by the Django application under
`event-calendar-main`, which is not part of this repository; section 3 of
the specification lists the columns as id, title, description, start_time,
end_time, is_active, is_deleted, created_at, updated_at, user_id, and
`SELECT *` yields the columns in schema order. -/
def rowTuple (r : EventRow) : EventTuple :=
  (r.id, r.title, r.description, r.start_time, r.end_time,
   r.is_active, r.is_deleted, r.created_at, r.updated_at, r.user_id)

/-- Effect of `db_check.py`: `SELECT * FROM calendarapp_event`, then
`fetchall` and a print of each row as a raw tuple.  The first component is
the printed listing, the second the database state when the script closes
the connection (the script performs no write). -/
def db_check_script (db : List EventRow) : List EventTuple × List EventRow :=
  (db.map rowTuple, db)

/-- The listing printed by `db_check.py`. -/
def db_check_run (db : List EventRow) : List EventTuple :=
  (db_check_script db).1

/-- Hardcoded target id of `db_UPDATE.py` (`event_id = 3`). -/
def db_UPDATE_eventId : Nat := 3

/-- Hardcoded new title of `db_UPDATE.py`. -/
def db_UPDATE_newTitle : String := "수정된 일정 제목"

/-- Hardcoded new description of `db_UPDATE.py`. -/
def db_UPDATE_newDescription : String := "수정된 설명입니다."

/-- Effect of the `UPDATE ... SET title, description, updated_at WHERE id`
statement on a single row: rows matching the predicate get the three new
column values, all other rows are untouched.  `now` is the
`datetime.now()` reading taken for `updated_at`. -/
def updateRow (now : Nat) (r : EventRow) : EventRow :=
  if r.id = db_UPDATE_eventId then
    { r with
      title := db_UPDATE_newTitle
      description := db_UPDATE_newDescription
      updated_at := now }
  else r

/-- Effect of `db_UPDATE.py` on the table, then the script commits. -/
def db_UPDATE_run (db : List EventRow) (now : Nat) : List EventRow :=
  db.map (updateRow now)

/-- Hardcoded target id of `db_delete.py` (`event_id = 3`). -/
def db_delete_eventId : Nat := 3

/-- Effect of `db_delete.py` on the table: `DELETE FROM calendarapp_event
WHERE id = ?` keeps exactly the rows whose id differs from the target,
then the script commits. -/
def db_delete_run (db : List EventRow) : List EventRow :=
  db.filter (fun r => decide (r.id ≠ db_delete_eventId))

/-- Exit codes of the four sub-processes `main-calendar/start.py`
launches, in source order. -/
structure SubprocessExits where
  pipInstall : Nat
  makemigrations : Nat
  migrate : Nat
  runserver : Nat
deriving DecidableEq, Repr

/-- Outcome of one run of `main-calendar/start.py`: the working directory
it changed into, the commands actually launched in order, and whether the
script aborted with an unhandled `CalledProcessError`. -/
structure BootOutcome where
  cwd : String
  executed : List String
  aborted : Bool
deriving DecidableEq, Repr

/-- Effect of `main-calendar/start.py`: `os.chdir("event-calendar-main")`,
then `pip install -r requirements.txt` with `check=True` (a non-zero exit
raises `CalledProcessError` and aborts the script before anything else
runs), then — only if that succeeded — `makemigrations`, `migrate` and
`runserver`, none of which is checked. -/
def start_run (env : SubprocessExits) : BootOutcome :=
  if env.pipInstall ≠ 0 then
    { cwd := "event-calendar-main"
    , executed := ["pip install -r requirements.txt"]
    , aborted := true }
  else
    { cwd := "event-calendar-main"
    , executed := ["pip install -r requirements.txt",
                   "python manage.py makemigrations",
                   "python manage.py migrate",
                   "python manage.py runserver"]
    , aborted := false }

/-- Every id present in the table is bounded by `maxId`. -/
theorem id_le_maxId {r : EventRow} :
    ∀ {db : List EventRow}, r ∈ db → r.id ≤ maxId db := by
  intro db h
  induction db with
  | nil => cases h
  | cons x xs ih =>
    rcases List.mem_cons.mp h with h | h
    · subst h; exact le_max_left _ _
    · exact le_trans (ih h) (le_max_right _ _)

/-- The auto-assigned id of the inserted row is fresh: no existing row
carries it. -/
theorem nextId_fresh {db : List EventRow} {r : EventRow} (h : r ∈ db) :
    r.id ≠ nextId db := by
  have := id_le_maxId h
  unfold nextId
  omega

/-- A concrete row carrying the target id 3, used in witness statements. -/
def sampleRow : EventRow :=
  { id := 3
  , title := "old title"
  , description := "old description"
  , start_time := "2025-01-01 09:00:00"
  , end_time := "2025-01-01 10:00:00"
  , is_active := 1
  , is_deleted := 0
  , created_at := 10
  , updated_at := 20
  , user_id := 7 }

/-- A concrete row with an id other than 3, used in witness statements. -/
def otherRow : EventRow :=
  { id := 1
  , title := "other title"
  , description := "other description"
  , start_time := "2025-02-02 09:00:00"
  , end_time := "2025-02-02 10:00:00"
  , is_active := 1
  , is_deleted := 0
  , created_at := 1
  , updated_at := 2
  , user_id := 4 }

/-- A concrete two-row table used in witness statements. -/
def sampleDb : List EventRow := [otherRow, sampleRow]

/-- Claim C1: for every database state, running the Record Inserter and then
the Record Lister yields the old listing extended by exactly one new tuple
that carries the supplied field values intact together with a newly
auto-assigned id no existing row carries. -/
theorem c1_insert_then_list (db : List EventRow) (now1 now2 : Nat) :
    db_check_run (db_add_run db now1 now2)
      = db_check_run db ++ [rowTuple (insertedRow db now1 now2)] ∧
    (insertedRow db now1 now2).title = "예시 일정 제목" ∧
    (insertedRow db now1 now2).description = "직접 삽입한 일정입니다." ∧
    (insertedRow db now1 now2).start_time = "2025-05-20 09:00:00" ∧
    (insertedRow db now1 now2).end_time = "2025-05-20 10:00:00" ∧
    (insertedRow db now1 now2).user_id = 1 ∧
    ∀ r ∈ db, r.id ≠ (insertedRow db now1 now2).id := by
  refine ⟨?_, rfl, rfl, rfl, rfl, rfl, ?_⟩
  · simp [db_check_run, db_check_script, db_add_run]
  · intro r hr
    exact nextId_fresh hr

/-- Witness for C1 at the concrete two-row table. -/
theorem c1_insert_then_list_witness :
    sampleRow ∈ sampleDb ∧
    sampleRow.id ≠ (insertedRow sampleDb 5 6).id :=
  ⟨by decide,
   (c1_insert_then_list sampleDb 5 6).2.2.2.2.2.2 sampleRow (by decide)⟩

/-- Claim C9: every row created by the Record Inserter has `is_active = 1`
and `is_deleted = 0`, and its `created_at` and `updated_at` are the results
of the two separate clock readings taken at insertion time, in source order
(so the two values are independent of each other). -/
theorem c9_inserter_flags_and_timestamps (db : List EventRow) (now1 now2 : Nat) :
    (insertedRow db now1 now2).is_active = 1 ∧
    (insertedRow db now1 now2).is_deleted = 0 ∧
    (insertedRow db now1 now2).created_at = now1 ∧
    (insertedRow db now1 now2).updated_at = now2 :=
  ⟨rfl, rfl, rfl, rfl⟩

/-- Claim C10: running the Record Inserter leaves every pre-existing row in
place with identical column values at its old position, and appends exactly
one new row. -/
theorem c10_insert_frame (db : List EventRow) (now1 now2 : Nat) :
    (db_add_run db now1 now2).length = db.length + 1 ∧
    (∀ i, i < db.length → (db_add_run db now1 now2).get? i = db.get? i) ∧
    (db_add_run db now1 now2).get? db.length = some (insertedRow db now1 now2) := by
  refine ⟨by simp [db_add_run], ?_, ?_⟩
  · intro i hi
    simp only [db_add_run, List.get?_eq_getElem?]
    exact List.getElem?_append_left hi
  · simp only [db_add_run, List.get?_eq_getElem?]
    exact List.getElem?_concat_length _ _

/-- Witness for C10 at the concrete two-row table. -/
theorem c10_insert_frame_witness :
    0 < sampleDb.length ∧
    (db_add_run sampleDb 5 6).get? 0 = sampleDb.get? 0 :=
  ⟨by decide, (c10_insert_frame sampleDb 5 6).2.1 0 (by decide)⟩

/-- `s` is `r` with exactly the three columns the UPDATE statement sets
replaced (title, description, updated_at) and every other column kept. -/
def updatedExactly (r s : EventRow) (now : Nat) : Prop :=
  s.title = db_UPDATE_newTitle ∧
  s.description = db_UPDATE_newDescription ∧
  s.updated_at = now ∧
  s.id = r.id ∧
  s.created_at = r.created_at ∧
  s.start_time = r.start_time ∧
  s.end_time = r.end_time ∧
  s.is_active = r.is_active ∧
  s.is_deleted = r.is_deleted ∧
  s.user_id = r.user_id

/-- Claim C2: on a database whose position `i` holds a row `r`, the Record
Updater keeps the table length, replaces position `i` by `updateRow now r`,
which for `r.id ≠ 3` is `r` itself (every other row unchanged) and for
`r.id = 3` changes exactly title, description and updated_at while keeping
id, created_at, start_time, end_time, is_active, is_deleted and user_id. -/
theorem c2_update_frame (db : List EventRow) (now i : Nat) (r : EventRow)
    (h : db.get? i = some r) :
    (db_UPDATE_run db now).length = db.length ∧
    (db_UPDATE_run db now).get? i = some (updateRow now r) ∧
    (r.id ≠ db_UPDATE_eventId → updateRow now r = r) ∧
    (r.id = db_UPDATE_eventId → updatedExactly r (updateRow now r) now) := by
  refine ⟨by simp [db_UPDATE_run], ?_, ?_, ?_⟩
  · simp only [db_UPDATE_run, List.get?_eq_getElem?] at h ⊢
    simp [List.getElem?_map, h]
  · intro hne
    simp [updateRow, hne]
  · intro heq
    simp [updateRow, heq, updatedExactly]

/-- Witness for C2: the update applied to the concrete two-row table at the
position of the id-3 row. -/
theorem c2_update_frame_witness :
    (db_UPDATE_run sampleDb 50).length = sampleDb.length ∧
    (db_UPDATE_run sampleDb 50).get? 1 = some (updateRow 50 sampleRow) ∧
    (sampleRow.id ≠ db_UPDATE_eventId → updateRow 50 sampleRow = sampleRow) ∧
    (sampleRow.id = db_UPDATE_eventId →
      updatedExactly sampleRow (updateRow 50 sampleRow) 50) :=
  c2_update_frame sampleDb 50 1 sampleRow (by decide)

/-- Claim C3: on a database in which no row has id 3, the Record Updater
and the Record Deleter both leave the database exactly unchanged (both are
total functions in this model: no error is raised, the commit succeeds
silently, and nothing distinguishes this run from an effective one). -/
theorem c3_missing_id_noop (db : List EventRow) (now : Nat)
    (h : ∀ r ∈ db, r.id ≠ 3) :
    db_UPDATE_run db now = db ∧ db_delete_run db = db := by
  constructor
  · rw [db_UPDATE_run]
    have hmap : db.map (updateRow now) = db.map id := by
      apply List.map_congr_left
      intro r hr
      simp [updateRow, db_UPDATE_eventId, h r hr]
    rw [hmap, List.map_id]
  · rw [db_delete_run]
    apply List.filter_eq_self.mpr
    intro r hr
    simp [db_delete_eventId, h r hr]

/-- Witness for C3 at a concrete one-row table whose only id is 1. -/
theorem c3_missing_id_noop_witness :
    db_UPDATE_run [otherRow] 50 = [otherRow] ∧
    db_delete_run [otherRow] = [otherRow] :=
  c3_missing_id_noop [otherRow] 50 (by decide)

/-- The length of the table splits into the rows the DELETE removes and the
rows it keeps. -/
theorem delete_length_split (db : List EventRow) :
    (db_delete_run db).length
      + db.countP (fun r => decide (r.id = db_delete_eventId)) = db.length := by
  induction db with
  | nil => rfl
  | cons x xs ih =>
    by_cases hx : x.id = db_delete_eventId <;>
      simp [db_delete_run, List.filter, List.countP_cons, hx] <;>
      simp [db_delete_run] at ih <;> omega

/-- Claim C4: on a database holding exactly one row with id 3, the Record
Deleter removes that row permanently: the row count drops by exactly one,
every surviving row is an unmodified original row whose id is not 3 (a hard
DELETE — no `is_deleted` flag of any kept row is touched), every original
row with a different id survives, and the subsequent listing contains no
tuple whose id column is 3. -/
theorem c4_delete_removes (db : List EventRow)
    (h : db.countP (fun r => decide (r.id = db_delete_eventId)) = 1) :
    (db_delete_run db).length + 1 = db.length ∧
    (∀ r ∈ db_delete_run db, r.id ≠ db_delete_eventId ∧ r ∈ db) ∧
    (∀ r ∈ db, r.id ≠ db_delete_eventId → r ∈ db_delete_run db) ∧
    (∀ t ∈ db_check_run (db_delete_run db), t.1 ≠ db_delete_eventId) := by
  refine ⟨?_, ?_, ?_, ?_⟩
  · have := delete_length_split db
    omega
  · intro r hr
    have := List.mem_filter.mp hr
    refine ⟨by simpa using this.2, this.1⟩
  · intro r hr hne
    exact List.mem_filter.mpr ⟨hr, by simpa using hne⟩
  · intro t ht
    simp only [db_check_run, db_check_script, List.mem_map] at ht
    obtain ⟨r, hr, rfl⟩ := ht
    have := List.mem_filter.mp hr
    simpa [rowTuple] using this.2

/-- Witness for C4 at the concrete two-row table, which holds exactly one
row with id 3. -/
theorem c4_delete_removes_witness :
    (db_delete_run sampleDb).length + 1 = sampleDb.length :=
  (c4_delete_removes sampleDb (by decide)).1

/-- Claim C5: running the Record Updater on a database holding a row `r`
with id 3, with a clock reading later than that row's stored updated_at,
makes the listing show the id-3 row bearing the new title and an
updated_at strictly greater than its prior value. -/
theorem c5_update_scenario (db : List EventRow) (now : Nat) (r : EventRow)
    (hr : r ∈ db) (hid : r.id = db_UPDATE_eventId)
    (hclock : r.updated_at < now) :
    updateRow now r ∈ db_UPDATE_run db now ∧
    rowTuple (updateRow now r) ∈ db_check_run (db_UPDATE_run db now) ∧
    (updateRow now r).id = db_UPDATE_eventId ∧
    (updateRow now r).title = db_UPDATE_newTitle ∧
    r.updated_at < (updateRow now r).updated_at := by
  have hmem : updateRow now r ∈ db_UPDATE_run db now :=
    List.mem_map_of_mem _ hr
  refine ⟨hmem, ?_, ?_, ?_, ?_⟩
  · simp only [db_check_run, db_check_script]
    exact List.mem_map_of_mem _ hmem
  · simp [updateRow, hid]
  · simp [updateRow, hid]
  · simpa [updateRow, hid] using hclock

/-- Witness for C5: the concrete id-3 row, updated at clock reading 50,
gets an updated_at strictly above its prior value 20. -/
theorem c5_update_scenario_witness :
    sampleRow.updated_at < (updateRow 50 sampleRow).updated_at :=
  (c5_update_scenario sampleDb 50 sampleRow (by decide) (by decide)
    (by decide)).2.2.2.2

/-- Claim C6: every script opens a single database file at a relative path
that is one of the two literals, and the paths differ across scripts: the
Record Updater opens `db.sqlite3` while the Inserter, Lister and Deleter
open `event-calendar-main/db.sqlite3`. -/
theorem c6_db_paths :
    db_UPDATE_dbPath = "db.sqlite3" ∧
    db_add_dbPath = "event-calendar-main/db.sqlite3" ∧
    db_check_dbPath = "event-calendar-main/db.sqlite3" ∧
    db_delete_dbPath = "event-calendar-main/db.sqlite3" ∧
    db_UPDATE_dbPath ≠ db_add_dbPath :=
  ⟨rfl, rfl, rfl, rfl, by decide⟩

/-- Claim C7: the Record Lister outputs exactly one tuple per row currently
in the table, each tuple being the row's columns in schema order, and it
leaves the database state untouched (no write). -/
theorem c7_lister (db : List EventRow) :
    (db_check_script db).1.length = db.length ∧
    (∀ i, (db_check_script db).1.get? i = (db.get? i).map rowTuple) ∧
    (db_check_script db).2 = db := by
  refine ⟨by simp [db_check_script], ?_, rfl⟩
  intro i
  simp [db_check_script, List.get?_eq_getElem?, List.getElem?_map]

/-- Claim C8: in the Environment Bootstrapper a failing `pip install`
aborts the script — only the install command has run, none of the later
sub-processes is launched — whereas when the install succeeds the script
never aborts and launches makemigrations, migrate and runserver regardless
of their own exit codes. -/
theorem c8_bootstrapper (env : SubprocessExits) :
    (env.pipInstall ≠ 0 →
      (start_run env).aborted = true ∧
      (start_run env).executed = ["pip install -r requirements.txt"]) ∧
    (env.pipInstall = 0 →
      (start_run env).aborted = false ∧
      (start_run env).executed =
        ["pip install -r requirements.txt",
         "python manage.py makemigrations",
         "python manage.py migrate",
         "python manage.py runserver"]) := by
  constructor
  · intro h
    simp [start_run, h]
  · intro h
    simp [start_run, h]

/-- Witness for C8: a failing install (exit 1) aborts after one command; a
succeeding install with all three later steps failing (exit 1 each) still
runs them all and does not abort. -/
theorem c8_bootstrapper_witness :
    ((start_run ⟨1, 0, 0, 0⟩).aborted = true ∧
     (start_run ⟨1, 0, 0, 0⟩).executed = ["pip install -r requirements.txt"]) ∧
    ((start_run ⟨0, 1, 1, 1⟩).aborted = false ∧
     (start_run ⟨0, 1, 1, 1⟩).executed =
       ["pip install -r requirements.txt",
        "python manage.py makemigrations",
        "python manage.py migrate",
        "python manage.py runserver"]) :=
  ⟨(c8_bootstrapper ⟨1, 0, 0, 0⟩).1 (by decide),
   (c8_bootstrapper ⟨0, 1, 1, 1⟩).2 rfl⟩
